import Mathlib

/-!
# Verification of the osk_c_fw JSON configuration/table framework

Shallow embedding of the CJSON value-extraction engine (src/fsw/src/cjson.c),
the INITBL configuration loader (src/fsw/src/initbl.c) and the TBLMGR table
registry interface (src/fsw/app_inc/tblmgr.h), together with proofs about the
frozen specification claims.

The external coreJSON primitives (JSON_SearchConst, JSON_Validate), the OSAL
file primitives (OS_open, OS_read) and the event sink (CFE_EVS_SendEvent) are
collaborators outside the repository; they are modelled by their observable
interface: a buffer is represented by its search oracle, the file system by
the results the pipeline observes, and event logging is omitted (it does not
influence any data flow).
-/

namespace OskCFw

/-- JSONTypes_t from coreJSON, in declaration order (JSONInvalid = 0). -/
inductive JSONTypes where
  | JSONInvalid
  | JSONString
  | JSONNumber
  | JSONTrue
  | JSONFalse
  | JSONNull
  | JSONObject
  | JSONArray
deriving DecidableEq, Repr

/-- JSONStatus_t from coreJSON, in declaration order. -/
inductive JSONStatus where
  | JSONPartial
  | JSONSuccess
  | JSONIllegalDocument
  | JSONMaxDepthExceeded
  | JSONNotFound
  | JSONNullParameter
  | JSONBadParameter
deriving DecidableEq, Repr

open JSONTypes JSONStatus

/-- OBJ_Necessity_t from cjson.c. -/
inductive OBJ_Necessity where
  | OBJ_OPTIONAL
  | OBJ_REQUIRED
deriving DecidableEq, Repr

/-- Content of a descriptor destination. In C the destination is raw caller
memory written through a void pointer; the claims only exercise it as either
a 32-bit integer cell (stored here as its unsigned 32-bit view, the view the
INITBL accessor reads back) or a NUL-terminated string. A zeroed cell is
represented by intv 0. -/
inductive TblValue where
  | intv (n : Nat)
  | strv (s : String)
deriving DecidableEq, Repr

/-- C characters accepted by the isspace test that strtol performs before
conversion: space, tab, newline, vertical tab, form feed, carriage return. -/
def isSpaceChar (c : Char) : Bool :=
  c == ' ' || c == '\t' || c == '\n' || c == '\r' ||
  c == Char.ofNat 11 || c == Char.ofNat 12

/-- Value of a nonempty decimal digit list. -/
def digitsToNat (ds : List Char) : Nat :=
  ds.foldl (fun acc c => acc * 10 + (c.toNat - 48)) 0

/-- Model of strtol(NumberBuf, &ErrCheck, 10) restricted to the observation
the code makes: none exactly when ErrCheck == NumberBuf (no character was
consumed, i.e. no digit follows the optional whitespace and sign), otherwise
the signed integer value of the consumed prefix. The LONG_MAX clamping of
strtol is not modelled: the code copies the text into a 20-character local
buffer, so a well-formed text is at most 19 digits only slightly above the
long range, and no claim involves such values. -/
def strtolParse (s : String) : Option Int :=
  let cs := s.data.dropWhile isSpaceChar
  let signRest : Int × List Char :=
    match cs with
    | '-' :: t => (-1, t)
    | '+' :: t => (1, t)
    | _        => (1, cs)
  let ds := signRest.2.takeWhile Char.isDigit
  if ds.isEmpty then none
  else some (signRest.1 * (digitsToNat ds : Int))

/-- The (int) cast of the parsed long followed by the uint32 read that
INITBL_GetIntConfig performs: the 32-bit pattern of the value. -/
def toUInt32Pat (v : Int) : Nat := (v % (2 : Int) ^ 32).toNat

/-- A JSON buffer is modelled by its JSON_SearchConst oracle: the association
of query keys to the (type, value text) pair the search reports. A key absent
from the list is a search failure (JSONNotFound behaviour). -/
abbrev JsonBuffer := List (String × JSONTypes × String)

/-- JSON_SearchConst result for one key, abstracted to the match it yields. -/
def searchBuf (buf : JsonBuffer) (key : String) : Option (JSONTypes × String) :=
  match buf.find? (fun e => e.1 == key) with
  | some e => some e.2
  | none => none

/-- CJSON_Query_t: query key and its strlen. The search is keyed by the
string itself; KeyLen is carried for structural fidelity. -/
structure CJSON_Query where
  Key : String
  KeyLen : Nat
deriving DecidableEq, Repr

/-- CJSON_Obj_t: query, destination cell and its recorded byte capacity,
updated flag, and the declared JSON type. The C field named Type is called
JType here because Type is reserved in Lean. -/
structure CJSON_Obj where
  Query : CJSON_Query
  TblData : TblValue
  TblDataLen : Nat
  Updated : Bool
  JType : JSONTypes
deriving DecidableEq, Repr

/-- A fully zeroed CJSON_Obj_t, as laid down by CFE_PSP_MemSet: empty key,
zero capacity, cleared flag, type code 0 (JSONInvalid), zero destination. -/
def zeroObj : CJSON_Obj :=
  { Query := { Key := "", KeyLen := 0 }
    TblData := .intv 0
    TblDataLen := 0
    Updated := false
    JType := JSONInvalid }

/-- Result of one LoadObj call: the boolean return, the descriptor after the
call (updated flag and destination cell), and the number of bytes the call
wrote through the destination pointer (0 when no write happened). -/
structure LoadResult where
  RetStatus : Bool
  Obj : CJSON_Obj
  BytesWritten : Nat
deriving DecidableEq, Repr

/-- LoadObj from cjson.c. Clears Updated, searches the buffer for the query
key and dispatches on the type of the found value (the declared JType is not
consulted):
 string - if ValueLen is at most TblDataLen, memcpy of ValueLen+1 bytes
   (value plus NUL) into the destination, Updated and return true; otherwise
   an overflow event and failure without a write;
 number - strtol of the value text; on conversion (ErrCheck advanced) a
   memcpy of sizeof(int) = 4 bytes, Updated and return true; otherwise a
   conversion-error event and failure without a write;
 array / object - diagnostic print only, failure without a write;
 any other type - unsupported-type event, failure without a write;
 search failure - failure; the necessity argument only selects whether an
   event is emitted, which is not modelled. -/
def LoadObj (Obj : CJSON_Obj) (Buf : JsonBuffer) (_Necessity : OBJ_Necessity) :
    LoadResult :=
  let Obj := { Obj with Updated := false }
  match searchBuf Buf Obj.Query.Key with
  | some (ValueType, Value) =>
    match ValueType with
    | JSONString =>
      if Value.length ≤ Obj.TblDataLen then
        { RetStatus := true
          Obj := { Obj with TblData := .strv Value, Updated := true }
          BytesWritten := Value.length + 1 }
      else
        { RetStatus := false, Obj := Obj, BytesWritten := 0 }
    | JSONNumber =>
      match strtolParse Value with
      | some v =>
        { RetStatus := true
          Obj := { Obj with TblData := .intv (toUInt32Pat v), Updated := true }
          BytesWritten := 4 }
      | none =>
        { RetStatus := false, Obj := Obj, BytesWritten := 0 }
    | JSONArray => { RetStatus := false, Obj := Obj, BytesWritten := 0 }
    | JSONObject => { RetStatus := false, Obj := Obj, BytesWritten := 0 }
    | _ => { RetStatus := false, Obj := Obj, BytesWritten := 0 }
  | none => { RetStatus := false, Obj := Obj, BytesWritten := 0 }

/-- CJSON_LoadObj: LoadObj with OBJ_REQUIRED. -/
def CJSON_LoadObj (Obj : CJSON_Obj) (Buf : JsonBuffer) : LoadResult :=
  LoadObj Obj Buf .OBJ_REQUIRED

/-- CJSON_LoadObjOptional: LoadObj with OBJ_OPTIONAL. -/
def CJSON_LoadObjOptional (Obj : CJSON_Obj) (Buf : JsonBuffer) : LoadResult :=
  LoadObj Obj Buf .OBJ_OPTIONAL

/-- CJSON_LoadObjArray: CJSON_LoadObj on every descriptor of the array in
order against the same buffer, counting the successes. Returns the count and
the descriptors after their calls. -/
def CJSON_LoadObjArray : List CJSON_Obj → JsonBuffer → Nat × List CJSON_Obj
  | [], _ => (0, [])
  | o :: rest, buf =>
    let r := CJSON_LoadObj o buf
    let (n, rest') := CJSON_LoadObjArray rest buf
    (if r.RetStatus then n + 1 else n, r.Obj :: rest')

/-- OS_FS_ERROR from OSAL: the one read result that ProcessFile treats as a
read fault (the comparison is against this constant only). Its concrete
value is irrelevant to the control flow; OSAL defines it as -1. -/
def OS_FS_ERROR : Int := -1

/-- What ProcessFile observes from its collaborators for one call: the
OS_open result (nonnegative = valid handle), the OS_read result (OS_FS_ERROR
= fault, otherwise the byte count deposited in JsonBuf), the JSON_Validate
status of those bytes, and the search oracle of the deposited content. -/
structure FileEnv where
  openResult : Int
  readResult : Int
  validateStatus : JSONStatus
  buf : JsonBuffer

/-- Result of one ProcessFile call: boolean return, final user data, and the
byte-count argument of every invocation of each callback slot (LoadJsonData
slot first, LoadJsonDataAlt slot second). -/
structure ProcessResult (υ : Type) where
  RetStatus : Bool
  UserData : υ
  LoadCalls : List Nat
  AltCalls : List Nat

/-- ProcessFile from cjson.c. RetStatus starts FALSE. If the open yields a
nonnegative handle, the file is read; a read status of OS_FS_ERROR is a
logged failure; otherwise the read count is the buffer length handed to
JSON_Validate, and only on JSONSuccess is exactly one of the two callbacks
invoked with that count, selected by CallbackWithUserData; its return value
becomes the return value of the call. The alternate callback threads the
user data. -/
def ProcessFile {υ : Type} (env : FileEnv)
    (loadJsonData : Nat → Bool) (loadJsonDataAlt : Nat → υ → Bool × υ)
    (userData : υ) (callbackWithUserData : Bool) : ProcessResult υ :=
  if 0 ≤ env.openResult then
    if env.readResult = OS_FS_ERROR then
      { RetStatus := false, UserData := userData, LoadCalls := [], AltCalls := [] }
    else
      let readLen : Nat := env.readResult.toNat
      if env.validateStatus = JSONSuccess then
        if callbackWithUserData then
          let r := loadJsonDataAlt readLen userData
          { RetStatus := r.1, UserData := r.2, LoadCalls := [], AltCalls := [readLen] }
        else
          { RetStatus := loadJsonData readLen, UserData := userData,
            LoadCalls := [readLen], AltCalls := [] }
      else
        { RetStatus := false, UserData := userData, LoadCalls := [], AltCalls := [] }
  else
    { RetStatus := false, UserData := userData, LoadCalls := [], AltCalls := [] }

/-- StubLoadJsonData from cjson.c: logs a critical event and returns FALSE. -/
def StubLoadJsonData (_JsonFileLen : Nat) : Bool := false

/-- StubLoadJsonDataAlt from cjson.c: logs a critical event and returns
FALSE, leaving the user data alone. -/
def StubLoadJsonDataAlt {υ : Type} (_JsonFileLen : Nat) (u : υ) : Bool × υ :=
  (false, u)

/-- CJSON_ProcessFile: ProcessFile with the plain callback live and the
alternate slot bound to the stub, CallbackWithUserData = FALSE. The C passes
JsonBuf as the unused user data pointer; Unit stands for it here. -/
def CJSON_ProcessFile (env : FileEnv) (loadJsonData : Nat → Bool) :
    ProcessResult Unit :=
  ProcessFile env loadJsonData StubLoadJsonDataAlt () false

/-- CJSON_ProcessFileAlt: ProcessFile with the alternate callback live and
the plain slot bound to the stub, CallbackWithUserData = TRUE. -/
def CJSON_ProcessFileAlt {υ : Type} (env : FileEnv)
    (loadJsonDataAlt : Nat → υ → Bool × υ) (userData : υ) : ProcessResult υ :=
  ProcessFile env StubLoadJsonData loadJsonDataAlt userData true

/-! ## INITBL configuration loader (initbl.c) -/

/-- INILIB_TYPE_INT: the type literal of integer parameters. inilib.h is not
among the sources; only the distinctness of the two literals matters. -/
def INILIB_TYPE_INT : String := "int"

/-- INILIB_TYPE_STR: the type literal of string parameters. -/
def INILIB_TYPE_STR : String := "str"

/-- INILIB_CfgEnum_t: the enumeration contract handed to the constructor.
Start is 0 by the INILIB convention (the first enumerator is a reserved
start marker), EndId is the C field End (exclusive end, so the parameter
ids are Start+1 .. EndId-1), and the two lookups map an id to its name and
type literal. EndId is so named because End collides with a Lean keyword
context. -/
structure INILIB_CfgEnum where
  Start : Nat
  EndId : Nat
  GetStr : Nat → String
  GetType : Nat → String

/-- Limits and literals the loader takes from headers that are not among the
sources (initbl.h). maxCfgItems models INITBL_MAX_CFG_ITEMS, maxCfgStrLen
models INITBL_MAX_CFG_STR_LEN, keyBase models INITBL_JSON_CONFIG_OBJ_PREFIX.
No claim depends on their concrete values, so they are parameters. -/
structure INITBL_Limits where
  maxCfgItems : Nat
  maxCfgStrLen : Nat
  keyBase : String

/-- INITBL_Class_t. JsonParams is the descriptor array (a total function,
mirroring the memset-zeroed C array: unbuilt slots read as zeroObj) and
CfgData the value table the descriptors point into; CfgData[p] is the
destination of JsonParams[p - Start - 1]. JsonBuf holds the search oracle of
the file content deposited by the pipeline read. -/
structure INITBL_Class where
  CfgEnum : INILIB_CfgEnum
  JsonParams : Nat → CJSON_Obj
  CfgData : Nat → TblValue
  JsonParamCnt : Nat
  JsonFileLen : Nat
  JsonBuf : JsonBuffer

/-- The state CFE_PSP_MemSet(IniTbl, 0, ...) followed by the CfgEnum copy
leaves behind. -/
def initState (cfgEnum : INILIB_CfgEnum) : INITBL_Class :=
  { CfgEnum := cfgEnum
    JsonParams := fun _ => zeroObj
    CfgData := fun _ => .intv 0
    JsonParamCnt := 0
    JsonFileLen := 0
    JsonBuf := [] }

/-- The descriptor BuildJsonTblObjArray builds for parameter id p of kind t
(t is JSONNumber or JSONString): key = prefix ++ name (the C truncates both
copies to CJSON_MAX_KEY_LEN, not modelled; the claims use short keys),
destination = the CfgData cell of p with capacity sizeof(uint32) = 4 for
integers and INITBL_MAX_CFG_STR_LEN for strings. -/
def buildParam (lim : INITBL_Limits) (itbl : INITBL_Class) (p : Nat)
    (t : JSONTypes) : CJSON_Obj :=
  { Query :=
      { Key := lim.keyBase ++ itbl.CfgEnum.GetStr p
        KeyLen := (lim.keyBase ++ itbl.CfgEnum.GetStr p).length }
    TblData := itbl.CfgData p
    TblDataLen := if t = JSONNumber then 4 else lim.maxCfgStrLen
    Updated := false
    JType := t }

/-- BuildJsonTblObjArray from initbl.c. Clears JsonParamCnt; if
CfgEnum.End exceeds INITBL_MAX_CFG_ITEMS + 1 the build fails at once and
nothing is built. Otherwise JsonParamCnt := End - 1 and the loop builds one
descriptor per id Start+1 .. End-1 at index id - Start - 1: an unknown type
literal marks the build failed (the loop continues and the slot stays
zeroed), the two known literals build a number or string descriptor. -/
def BuildJsonTblObjArray (lim : INITBL_Limits) (itbl : INITBL_Class) :
    Bool × INITBL_Class :=
  let itbl := { itbl with JsonParamCnt := 0 }
  if itbl.CfgEnum.EndId ≤ lim.maxCfgItems + 1 then
    let itbl := { itbl with JsonParamCnt := itbl.CfgEnum.EndId - 1 }
    let params := List.range' (itbl.CfgEnum.Start + 1)
      (itbl.CfgEnum.EndId - (itbl.CfgEnum.Start + 1))
    params.foldl
      (fun (acc : Bool × INITBL_Class) p =>
        let (ok, st) := acc
        let ty := st.CfgEnum.GetType p
        if ty = INILIB_TYPE_INT then
          (ok, { st with JsonParams := fun i =>
                  if i = p - st.CfgEnum.Start - 1 then buildParam lim st p JSONNumber
                  else st.JsonParams i })
        else if ty = INILIB_TYPE_STR then
          (ok, { st with JsonParams := fun i =>
                  if i = p - st.CfgEnum.Start - 1 then buildParam lim st p JSONString
                  else st.JsonParams i })
        else
          (false, st))
      (true, itbl)
  else
    (false, itbl)

/-- LoadJsonData from initbl.c, the pipeline callback: records the file
length, runs CJSON_LoadObjArray over the JsonParamCnt descriptors against
JsonBuf, writes the updated descriptors back (their destination writes land
in the CfgData cells the C descriptors point to), and succeeds exactly when
every descriptor loaded. -/
def LoadJsonData (jsonFileLen : Nat) (itbl : INITBL_Class) :
    Bool × INITBL_Class :=
  let itbl := { itbl with JsonFileLen := jsonFileLen }
  let lst := (List.range itbl.JsonParamCnt).map itbl.JsonParams
  let r := CJSON_LoadObjArray lst itbl.JsonBuf
  let itbl :=
    { itbl with
      JsonParams := fun i =>
        if i < itbl.JsonParamCnt then r.2.getD i (itbl.JsonParams i)
        else itbl.JsonParams i
      CfgData := fun p =>
        if itbl.CfgEnum.Start + 1 ≤ p ∧ p < itbl.CfgEnum.Start + 1 + itbl.JsonParamCnt then
          (r.2.getD (p - itbl.CfgEnum.Start - 1) zeroObj).TblData
        else itbl.CfgData p }
  (r.1 = itbl.JsonParamCnt, itbl)

/-- Result of INITBL_Constructor: the boolean return, the final state,
whether CJSON_ProcessFileAlt was reached, and the byte counts the callback
was invoked with. -/
structure ConstructorResult where
  RetStatus : Bool
  IniTbl : INITBL_Class
  PipelineInvoked : Bool
  CallbackCalls : List Nat

/-- INITBL_Constructor from initbl.c: zero the instance, copy the contract,
build the descriptor array, and only if the build succeeded run the file
pipeline with LoadJsonData as the alternate callback (the read deposits the
file content in IniTbl.JsonBuf, modelled by threading env.buf into the state
handed to the pipeline). On a build failure an event is logged and the
pipeline is never invoked. -/
def INITBL_Constructor (lim : INITBL_Limits) (env : FileEnv)
    (cfgEnum : INILIB_CfgEnum) : ConstructorResult :=
  let itbl := initState cfgEnum
  let b := BuildJsonTblObjArray lim itbl
  if b.1 then
    let pr := CJSON_ProcessFileAlt env LoadJsonData { b.2 with JsonBuf := env.buf }
    { RetStatus := pr.RetStatus, IniTbl := pr.UserData,
      PipelineInvoked := true, CallbackCalls := pr.AltCalls }
  else
    { RetStatus := false, IniTbl := b.2,
      PipelineInvoked := false, CallbackCalls := [] }

/-- ValidJsonObjCfg from initbl.c: the index must lie in [Start, End), the
descriptor at that index must have been updated, and its declared type must
match the requested one. -/
def ValidJsonObjCfg (itbl : INITBL_Class) (jsonObjIndex : Nat)
    (t : JSONTypes) : Bool :=
  if itbl.CfgEnum.Start ≤ jsonObjIndex ∧ jsonObjIndex < itbl.CfgEnum.EndId then
    if (itbl.JsonParams jsonObjIndex).Updated then
      (itbl.JsonParams jsonObjIndex).JType = t
    else false
  else false

/-- The uint16 computation (Param - 1) both accessors perform. -/
def jsonObjIndexOf (param : Nat) : Nat := (param + (2 ^ 16 - 1)) % 2 ^ 16

/-- Reading the Int member of the INITBL_CfgData_t union. Reading the member
of a cell last written as a string reinterprets bytes in C; that corner is
outside the value-level model (no claim reaches a mismatched cell through
the accessor guard) and reads as 0 here. -/
def cfgIntView : TblValue → Nat
  | .intv n => n
  | .strv _ => 0

/-- Reading the Str member of the INITBL_CfgData_t union, same caveat. -/
def cfgStrView : TblValue → String
  | .strv s => s
  | .intv _ => ""

/-- INITBL_GetIntConfig from initbl.c: JsonObjIndex = Param - 1 in uint16
arithmetic; if ValidJsonObjCfg accepts it for JSONNumber the uint32 member
of CfgData[Param] is returned, else 0. -/
def INITBL_GetIntConfig (itbl : INITBL_Class) (param : Nat) : Nat :=
  let idx := jsonObjIndexOf param
  if ValidJsonObjCfg itbl idx JSONNumber then cfgIntView (itbl.CfgData param)
  else 0

/-- INITBL_GetStrConfig from initbl.c: as the integer accessor but for
JSONString; NULL (none) when the check fails. -/
def INITBL_GetStrConfig (itbl : INITBL_Class) (param : Nat) : Option String :=
  let idx := jsonObjIndexOf param
  if ValidJsonObjCfg itbl idx JSONString then some (cfgStrView (itbl.CfgData param))
  else none

/-! ## TBLMGR table registry

tblmgr.c is not among the sources; only the interface tblmgr.h is. The
registration state machine is therefore modelled from the spec, with the
header comments as the interface contract. The handler pair type is a
parameter α (the C stores two function pointers; their values never
influence registration). -/

/-- Modelled from the spec: the registry state of TBLMGR_Class_t as far as
registration observes it, tblmgr.c being absent from the sources. Ids are
assigned sequentially starting at 1 (identifier 0 is reserved as
undefined), the handler pair of each registered id is stored, and the
capacity is fixed. -/
structure TBLMGR_Class (α : Type) where
  NextAvailableId : Nat
  Handlers : Nat → Option α

/-- Modelled from the spec: TBLMGR_Constructor initializes an empty registry
whose first id to hand out is 1. -/
def TBLMGR_Constructor (α : Type) : TBLMGR_Class α :=
  { NextAvailableId := 1, Handlers := fun _ => none }

/-- Modelled from the spec and the tblmgr.h contract (Returns table ID
assigned to new table or TBLMGR_MAX_TBL_PER_APP if no IDs left):
registration assigns the next sequential id and stores the handler pair;
on a full registry it returns the capacity value cap (modelling
TBLMGR_MAX_TBL_PER_APP) as a caller-checked sentinel and changes nothing. -/
def TBLMGR_RegisterTbl {α : Type} (cap : Nat) (m : TBLMGR_Class α)
    (handlers : α) : Nat × TBLMGR_Class α :=
  if m.NextAvailableId ≤ cap then
    (m.NextAvailableId,
     { NextAvailableId := m.NextAvailableId + 1
       Handlers := fun i =>
         if i = m.NextAvailableId then some handlers else m.Handlers i })
  else
    (cap, m)

/-- A sequence of n registration calls (each storing the handler the caller
supplies for that call), returning the ids in call order and the final
state. -/
def registerCalls {α : Type} (cap : Nat) (hs : Nat → α) :
    Nat → TBLMGR_Class α → List Nat × TBLMGR_Class α
  | 0, m => ([], m)
  | n + 1, m =>
    let r := TBLMGR_RegisterTbl cap m (hs (m.NextAvailableId))
    let rest := registerCalls cap hs n r.2
    (r.1 :: rest.1, rest.2)

/-! ## Shared lemmas -/

/-- The LoadObj result is independent of the incoming Updated flag: the flag
is cleared unconditionally at entry. -/
lemma loadObj_ignores_updated (obj : CJSON_Obj) (b : Bool) (buf : JsonBuffer)
    (nec : OBJ_Necessity) :
    LoadObj { obj with Updated := b } buf nec = LoadObj obj buf nec := rfl

/-- On exit the Updated flag equals the boolean return of LoadObj: both are
set on exactly the two success paths. -/
lemma loadObj_updated_eq_ret (obj : CJSON_Obj) (buf : JsonBuffer)
    (nec : OBJ_Necessity) :
    (LoadObj obj buf nec).Obj.Updated = (LoadObj obj buf nec).RetStatus := by
  simp only [LoadObj]
  cases h : searchBuf buf obj.Query.Key with
  | none => rfl
  | some tv =>
    obtain ⟨t, v⟩ := tv
    cases t
    · rfl
    · dsimp only; split <;> rfl
    · dsimp only; cases strtolParse v <;> rfl
    · rfl
    · rfl
    · rfl
    · rfl
    · rfl

/-- A search failure makes LoadObj fail. -/
lemma loadObj_search_none (obj : CJSON_Obj) (buf : JsonBuffer)
    (nec : OBJ_Necessity) (h : searchBuf buf obj.Query.Key = none) :
    (LoadObj obj buf nec).RetStatus = false := by
  simp only [LoadObj, h]

/-- CJSON_LoadObjArray is the independent per-descriptor map: the count is
the number of descriptors whose own CJSON_LoadObj call succeeds and the
output array is the per-descriptor results in order. -/
lemma loadObjArray_spec (objs : List CJSON_Obj) (buf : JsonBuffer) :
    CJSON_LoadObjArray objs buf =
      (objs.countP (fun o => (CJSON_LoadObj o buf).RetStatus),
       objs.map (fun o => (CJSON_LoadObj o buf).Obj)) := by
  induction objs with
  | nil => rfl
  | cons o rest ih =>
    simp only [CJSON_LoadObjArray, ih, List.countP_cons, List.map_cons]
    split <;> rename_i hr <;> simp [hr]

/-! ## Claim theorems -/

/-- C1: code evaluation at the boundary of the string-capacity claim. For a
string descriptor of capacity 4, a matched value of length 3 (capacity minus
one) succeeds, as the claim states; but a matched value of length 4 (equal
to the capacity) is also accepted, because the guard in LoadObj is ValueLen
at most TblDataLen, and the copy then writes ValueLen + 1 = 5 bytes through
the 4-byte destination with Updated set - where the claim requires an
Overflow failure that writes nothing and leaves Updated false. -/
theorem c1_string_capacity_boundary_eval :
    (LoadObj { Query := { Key := "key", KeyLen := 3 }, TblData := .intv 0,
               TblDataLen := 4, Updated := false, JType := .JSONString }
       [("key", .JSONString, "abc")] .OBJ_REQUIRED).RetStatus = true
    ∧ (LoadObj { Query := { Key := "key", KeyLen := 3 }, TblData := .intv 0,
                 TblDataLen := 4, Updated := false, JType := .JSONString }
         [("key", .JSONString, "abcd")] .OBJ_REQUIRED).RetStatus = true
    ∧ (LoadObj { Query := { Key := "key", KeyLen := 3 }, TblData := .intv 0,
                 TblDataLen := 4, Updated := false, JType := .JSONString }
         [("key", .JSONString, "abcd")] .OBJ_REQUIRED).Obj.Updated = true
    ∧ (LoadObj { Query := { Key := "key", KeyLen := 3 }, TblData := .intv 0,
                 TblDataLen := 4, Updated := false, JType := .JSONString }
         [("key", .JSONString, "abcd")] .OBJ_REQUIRED).BytesWritten = 5 :=
  ⟨rfl, rfl, rfl, rfl⟩

/-- C2 counterexample: a number descriptor whose matched value text is 12x
does NOT fail: strtol consumes the leading digits, ErrCheck advances past
NumberBuf, and the code writes 12, sets Updated and returns success - the
claim asserts a parse failure with nothing written and Updated false. -/
theorem c2_counterexample :
    (LoadObj { Query := { Key := "num", KeyLen := 3 }, TblData := .intv 0,
               TblDataLen := 4, Updated := false, JType := .JSONNumber }
       [("num", .JSONNumber, "12x")] .OBJ_REQUIRED).RetStatus = true
    ∧ (LoadObj { Query := { Key := "num", KeyLen := 3 }, TblData := .intv 0,
                 TblDataLen := 4, Updated := false, JType := .JSONNumber }
         [("num", .JSONNumber, "12x")] .OBJ_REQUIRED).Obj.TblData = .intv 12
    ∧ (LoadObj { Query := { Key := "num", KeyLen := 3 }, TblData := .intv 0,
                 TblDataLen := 4, Updated := false, JType := .JSONNumber }
         [("num", .JSONNumber, "12x")] .OBJ_REQUIRED).Obj.Updated = true :=
  ⟨rfl, rfl, rfl⟩

/-- C2 amended: a matched number value fails to load exactly when strtol
consumes no character at all (no digit after the optional whitespace and
sign, e.g. the text x12); on such a parse failure nothing is written, the
destination is untouched and Updated is false. A text such as 12x, with
digits before the first non-numeric character, parses its leading digits
and loads successfully. -/
theorem c2_number_parse_failure (obj : CJSON_Obj) (buf : JsonBuffer)
    (nec : OBJ_Necessity) (v : String)
    (hs : searchBuf buf obj.Query.Key = some (JSONNumber, v))
    (hp : strtolParse v = none) :
    (LoadObj obj buf nec).RetStatus = false
    ∧ (LoadObj obj buf nec).Obj.TblData = obj.TblData
    ∧ (LoadObj obj buf nec).Obj.Updated = false
    ∧ (LoadObj obj buf nec).BytesWritten = 0 := by
  simp [LoadObj, hs, hp]

/-- C2 witness: the amended statement at the concrete text x12. -/
theorem c2_witness :
    (LoadObj { Query := { Key := "num", KeyLen := 3 }, TblData := .intv 7,
               TblDataLen := 4, Updated := false, JType := .JSONNumber }
       [("num", .JSONNumber, "x12")] .OBJ_REQUIRED).RetStatus = false
    ∧ (LoadObj { Query := { Key := "num", KeyLen := 3 }, TblData := .intv 7,
                 TblDataLen := 4, Updated := false, JType := .JSONNumber }
         [("num", .JSONNumber, "x12")] .OBJ_REQUIRED).Obj.TblData = .intv 7 := by
  have h := c2_number_parse_failure
    { Query := { Key := "num", KeyLen := 3 }, TblData := .intv 7,
      TblDataLen := 4, Updated := false, JType := .JSONNumber }
    [("num", .JSONNumber, "x12")] .OBJ_REQUIRED "x12" rfl rfl
  exact ⟨h.1, h.2.1⟩

/-- C3 counterexample: the capacity is NOT checked before every write. A
number descriptor with recorded capacity 2: the parse of the value 7
succeeds and the code writes sizeof(int) = 4 bytes with no comparison
against TblDataLen, so more bytes are written than the recorded capacity. -/
theorem c3_counterexample :
    (LoadObj { Query := { Key := "n", KeyLen := 1 }, TblData := .intv 0,
               TblDataLen := 2, Updated := false, JType := .JSONNumber }
       [("n", .JSONNumber, "7")] .OBJ_REQUIRED).RetStatus = true
    ∧ (LoadObj { Query := { Key := "n", KeyLen := 1 }, TblData := .intv 0,
                 TblDataLen := 2, Updated := false, JType := .JSONNumber }
         [("n", .JSONNumber, "7")] .OBJ_REQUIRED).Obj.TblDataLen
      < (LoadObj { Query := { Key := "n", KeyLen := 1 }, TblData := .intv 0,
                   TblDataLen := 2, Updated := false, JType := .JSONNumber }
           [("n", .JSONNumber, "7")] .OBJ_REQUIRED).BytesWritten :=
  ⟨rfl, by decide⟩

/-- C3 amended: what LoadObj actually guarantees about destination writes.
Either nothing is written; or the match was a string, the capacity test
ValueLen at most TblDataLen was passed before the write, and the write is
ValueLen + 1 bytes (one byte beyond the recorded capacity when ValueLen
equals it); or the match was a number and the write is sizeof(int) = 4
bytes with no capacity check at all. -/
theorem c3_written_bytes_characterization (obj : CJSON_Obj) (buf : JsonBuffer)
    (nec : OBJ_Necessity) :
    (LoadObj obj buf nec).BytesWritten = 0
    ∨ (∃ v, searchBuf buf obj.Query.Key = some (JSONString, v)
        ∧ v.length ≤ obj.TblDataLen
        ∧ (LoadObj obj buf nec).BytesWritten = v.length + 1)
    ∨ (∃ v, searchBuf buf obj.Query.Key = some (JSONNumber, v)
        ∧ (LoadObj obj buf nec).BytesWritten = 4) := by
  rcases h : searchBuf buf obj.Query.Key with _ | ⟨t, v⟩
  · left; simp only [LoadObj, h]
  · cases t
    · left; simp only [LoadObj, h]
    · by_cases hl : v.length ≤ obj.TblDataLen
      · right; left; exact ⟨v, rfl, hl, by simp only [LoadObj, h]; simp [hl]⟩
      · left; simp only [LoadObj, h]; simp [hl]
    · rcases hp : strtolParse v with _ | n
      · left; simp only [LoadObj, h, hp]
      · right; right; exact ⟨v, rfl, by simp only [LoadObj, h, hp]⟩
    · left; simp only [LoadObj, h]
    · left; simp only [LoadObj, h]
    · left; simp only [LoadObj, h]
    · left; simp only [LoadObj, h]
    · left; simp only [LoadObj, h]

/-- C4: CJSON_LoadObjArray attempts every descriptor and never
short-circuits: the i-th output descriptor is exactly the result of the
i-th individual CJSON_LoadObj call against the shared buffer, the returned
count is the number of descriptors whose own call succeeds (J when the
buffer holds matching well-typed loadable values for exactly J of them,
and J is at most K), and the Updated flags that remain set are exactly
those of the successful calls. -/
theorem c4_load_obj_array_total (objs : List CJSON_Obj) (buf : JsonBuffer) :
    (CJSON_LoadObjArray objs buf).1
        = objs.countP (fun o => (CJSON_LoadObj o buf).RetStatus)
    ∧ (CJSON_LoadObjArray objs buf).2
        = objs.map (fun o => (CJSON_LoadObj o buf).Obj)
    ∧ (CJSON_LoadObjArray objs buf).2.map CJSON_Obj.Updated
        = objs.map (fun o => (CJSON_LoadObj o buf).RetStatus)
    ∧ (CJSON_LoadObjArray objs buf).1 ≤ objs.length := by
  have h := loadObjArray_spec objs buf
  refine ⟨by rw [h], by rw [h], ?_, ?_⟩
  · rw [h]
    simp only [List.map_map]
    exact List.map_congr_left (fun o _ => loadObj_updated_eq_ret o buf _)
  · rw [h]
    exact List.countP_le_length _

/-- C10: LoadObj clears the Updated flag at entry (its result does not
depend on the incoming flag, so a flag set by an earlier success is reset
by a later failing call on the same descriptor) and on exit the flag equals
the boolean return; the same holds through the CJSON_LoadObj and
CJSON_LoadObjOptional entry points. -/
theorem c10_updated_cleared_and_tracks_return (obj : CJSON_Obj) (b : Bool)
    (buf : JsonBuffer) (nec : OBJ_Necessity) :
    (LoadObj obj buf nec).Obj.Updated = (LoadObj obj buf nec).RetStatus
    ∧ LoadObj { obj with Updated := b } buf nec = LoadObj obj buf nec
    ∧ (CJSON_LoadObj obj buf).Obj.Updated = (CJSON_LoadObj obj buf).RetStatus
    ∧ (CJSON_LoadObjOptional obj buf).Obj.Updated
        = (CJSON_LoadObjOptional obj buf).RetStatus :=
  ⟨loadObj_updated_eq_ret obj buf nec, loadObj_ignores_updated obj b buf nec,
   loadObj_updated_eq_ret obj buf .OBJ_REQUIRED,
   loadObj_updated_eq_ret obj buf .OBJ_OPTIONAL⟩

/-- The alternate-callback wrapper flattened: exactly when the open, read
and validate gates all pass, the alternate callback runs once with the read
byte count and supplies the return value; otherwise nothing runs and the
call fails. -/
lemma processFileAlt_spec {υ : Type} (env : FileEnv)
    (ldAlt : Nat → υ → Bool × υ) (u0 : υ) :
    CJSON_ProcessFileAlt env ldAlt u0 =
      if 0 ≤ env.openResult ∧ env.readResult ≠ OS_FS_ERROR
          ∧ env.validateStatus = JSONSuccess then
        { RetStatus := (ldAlt env.readResult.toNat u0).1
          UserData := (ldAlt env.readResult.toNat u0).2
          LoadCalls := [], AltCalls := [env.readResult.toNat] }
      else
        { RetStatus := false, UserData := u0, LoadCalls := [], AltCalls := [] } := by
  unfold CJSON_ProcessFileAlt ProcessFile
  by_cases h1 : 0 ≤ env.openResult
  · by_cases h2 : env.readResult = OS_FS_ERROR
    · simp [h1, h2]
    · by_cases h3 : env.validateStatus = JSONSuccess
      · simp [h1, h2, h3]
      · simp [h1, h2, h3]
  · simp [h1]

/-- The plain-callback wrapper flattened, symmetrically. -/
lemma processFilePlain_spec (env : FileEnv) (ld : Nat → Bool) :
    CJSON_ProcessFile env ld =
      if 0 ≤ env.openResult ∧ env.readResult ≠ OS_FS_ERROR
          ∧ env.validateStatus = JSONSuccess then
        { RetStatus := ld env.readResult.toNat
          UserData := (), LoadCalls := [env.readResult.toNat], AltCalls := [] }
      else
        { RetStatus := false, UserData := (), LoadCalls := [], AltCalls := [] } := by
  unfold CJSON_ProcessFile ProcessFile
  by_cases h1 : 0 ≤ env.openResult
  · by_cases h2 : env.readResult = OS_FS_ERROR
    · simp [h1, h2]
    · by_cases h3 : env.validateStatus = JSONSuccess
      · simp [h1, h2, h3]
      · simp [h1, h2, h3]
  · simp [h1]

/-- C5: the ingestion pipeline applies open, read and validate in that
order as hard gates, for both entry points. If the open fails (negative
handle), or the read faults (OS_FS_ERROR), or validation is not
JSONSuccess, the pipeline returns failure and neither callback slot is
ever invoked; if all three gates pass, the one live callback (the plain
one under CJSON_ProcessFile, the alternate one under
CJSON_ProcessFileAlt - the stub slot stays silent) is invoked exactly once
with the number of bytes read, and the pipeline returns exactly the
callback return value. -/
theorem c5_pipeline_gates (env : FileEnv) (ld : Nat → Bool) (υ : Type)
    (ldAlt : Nat → υ → Bool × υ) (u0 : υ) :
    (env.openResult < 0 →
      CJSON_ProcessFile env ld
          = { RetStatus := false, UserData := (), LoadCalls := [], AltCalls := [] }
      ∧ CJSON_ProcessFileAlt env ldAlt u0
          = { RetStatus := false, UserData := u0, LoadCalls := [], AltCalls := [] })
    ∧ (0 ≤ env.openResult → env.readResult = OS_FS_ERROR →
      CJSON_ProcessFile env ld
          = { RetStatus := false, UserData := (), LoadCalls := [], AltCalls := [] }
      ∧ CJSON_ProcessFileAlt env ldAlt u0
          = { RetStatus := false, UserData := u0, LoadCalls := [], AltCalls := [] })
    ∧ (0 ≤ env.openResult → env.readResult ≠ OS_FS_ERROR →
        env.validateStatus ≠ JSONSuccess →
      CJSON_ProcessFile env ld
          = { RetStatus := false, UserData := (), LoadCalls := [], AltCalls := [] }
      ∧ CJSON_ProcessFileAlt env ldAlt u0
          = { RetStatus := false, UserData := u0, LoadCalls := [], AltCalls := [] })
    ∧ (0 ≤ env.openResult → env.readResult ≠ OS_FS_ERROR →
        env.validateStatus = JSONSuccess →
      CJSON_ProcessFile env ld
          = { RetStatus := ld env.readResult.toNat, UserData := ()
              LoadCalls := [env.readResult.toNat], AltCalls := [] }
      ∧ CJSON_ProcessFileAlt env ldAlt u0
          = { RetStatus := (ldAlt env.readResult.toNat u0).1
              UserData := (ldAlt env.readResult.toNat u0).2
              LoadCalls := [], AltCalls := [env.readResult.toNat] }) := by
  refine ⟨fun h1 => ?_, fun h1 h2 => ?_, fun h1 h2 h3 => ?_, fun h1 h2 h3 => ?_⟩
  · rw [processFilePlain_spec, processFileAlt_spec]
    have : ¬ (0 ≤ env.openResult) := not_le.mpr h1
    simp [this]
  · rw [processFilePlain_spec, processFileAlt_spec]
    simp [h2]
  · rw [processFilePlain_spec, processFileAlt_spec]
    simp [h1, h2, h3]
  · rw [processFilePlain_spec, processFileAlt_spec]
    simp [h1, h2, h3]

/-- C5 witness: all gates pass at a concrete environment; each wrapper runs
its live callback exactly once with the 5 bytes read and returns its value. -/
theorem c5_witness :
    CJSON_ProcessFile { openResult := 0, readResult := 5,
                        validateStatus := JSONSuccess, buf := [] }
        (fun n => n == 5)
      = { RetStatus := true, UserData := (), LoadCalls := [5], AltCalls := [] }
    ∧ CJSON_ProcessFileAlt { openResult := 0, readResult := 5,
                             validateStatus := JSONSuccess, buf := [] }
        (fun n (u : Nat) => (true, u + n)) 7
      = { RetStatus := true, UserData := 12, LoadCalls := [], AltCalls := [5] } := by
  have h := (c5_pipeline_gates
    { openResult := 0, readResult := 5, validateStatus := JSONSuccess, buf := [] }
    (fun n => n == 5) Nat (fun n u => (true, u + n)) 7).2.2.2
    (by decide) (by decide) rfl
  exact h

/-- C7: when the enumeration parameter count (End - 1, ids 1 .. End-1)
exceeds the loader capacity INITBL_MAX_CFG_ITEMS, the constructor fails at
the capacity check inside BuildJsonTblObjArray, before any descriptor is
extracted: the file pipeline is never invoked, so no callback runs. -/
theorem c7_capacity_checked_before_ingestion (lim : INITBL_Limits)
    (env : FileEnv) (cfgEnum : INILIB_CfgEnum)
    (h : lim.maxCfgItems < cfgEnum.EndId - 1) :
    (INITBL_Constructor lim env cfgEnum).RetStatus = false
    ∧ (INITBL_Constructor lim env cfgEnum).PipelineInvoked = false
    ∧ (INITBL_Constructor lim env cfgEnum).CallbackCalls = [] := by
  have hend : ¬ (cfgEnum.EndId ≤ lim.maxCfgItems + 1) := by omega
  unfold INITBL_Constructor BuildJsonTblObjArray
  simp [initState, hend]

/-- C7 witness: capacity 2, five parameters (End = 6, count 5): failure
with the pipeline untouched, at an environment whose gates would pass. -/
theorem c7_witness :
    (INITBL_Constructor { maxCfgItems := 2, maxCfgStrLen := 16, keyBase := "CFG_" }
        { openResult := 0, readResult := 5, validateStatus := JSONSuccess, buf := [] }
        { Start := 0, EndId := 6, GetStr := fun _ => "P", GetType := fun _ => INILIB_TYPE_INT }).RetStatus = false
    ∧ (INITBL_Constructor { maxCfgItems := 2, maxCfgStrLen := 16, keyBase := "CFG_" }
        { openResult := 0, readResult := 5, validateStatus := JSONSuccess, buf := [] }
        { Start := 0, EndId := 6, GetStr := fun _ => "P", GetType := fun _ => INILIB_TYPE_INT }).PipelineInvoked = false := by
  have h := c7_capacity_checked_before_ingestion
    { maxCfgItems := 2, maxCfgStrLen := 16, keyBase := "CFG_" }
    { openResult := 0, readResult := 5, validateStatus := JSONSuccess, buf := [] }
    { Start := 0, EndId := 6, GetStr := fun _ => "P", GetType := fun _ => INILIB_TYPE_INT }
    (by decide)
  exact ⟨h.1, h.2.1⟩

/-- C6 counterexample: a wrongly-typed parameter does not necessarily fail
construction. One integer parameter (declared type int, so a 4-byte
destination) whose JSON value is the STRING ab: LoadObj dispatches on the
found JSON type, the 2-character string fits the 4-byte capacity, the
descriptor counts as loaded, and construction succeeds - the claim requires
failure for a parameter of the wrong type. -/
theorem c6_counterexample :
    (INITBL_Constructor { maxCfgItems := 4, maxCfgStrLen := 16, keyBase := "CFG_" }
        { openResult := 0, readResult := 9, validateStatus := JSONSuccess,
          buf := [("CFG_P1", .JSONString, "ab")] }
        { Start := 0, EndId := 2, GetStr := fun _ => "P1",
          GetType := fun _ => INILIB_TYPE_INT }).RetStatus = true := by
  rfl

/-- The constructor return flattened: success exactly when the descriptor
build succeeded, the three pipeline gates passed, and the loaded count of
the built descriptors against the file content equals the built count. -/
lemma constructor_ret_characterization (lim : INITBL_Limits) (env : FileEnv)
    (cfgEnum : INILIB_CfgEnum) :
    (INITBL_Constructor lim env cfgEnum).RetStatus = true ↔
      ((BuildJsonTblObjArray lim (initState cfgEnum)).1 = true
       ∧ 0 ≤ env.openResult ∧ env.readResult ≠ OS_FS_ERROR
       ∧ env.validateStatus = JSONSuccess
       ∧ (CJSON_LoadObjArray
            ((List.range (BuildJsonTblObjArray lim (initState cfgEnum)).2.JsonParamCnt).map
              (BuildJsonTblObjArray lim (initState cfgEnum)).2.JsonParams) env.buf).1
          = (BuildJsonTblObjArray lim (initState cfgEnum)).2.JsonParamCnt) := by
  by_cases hbb : (BuildJsonTblObjArray lim (initState cfgEnum)).1
  · unfold INITBL_Constructor
    dsimp only
    rw [if_pos hbb, processFileAlt_spec]
    by_cases hg : 0 ≤ env.openResult ∧ env.readResult ≠ OS_FS_ERROR
        ∧ env.validateStatus = JSONSuccess
    · rw [if_pos hg]
      unfold LoadJsonData
      dsimp only
      simp [hbb, hg.1, hg.2.1, hg.2.2]
    · rw [if_neg hg]
      dsimp only
      constructor
      · intro hfalse
        exact absurd hfalse (by simp)
      · intro hr
        exact absurd ⟨hr.2.1, hr.2.2.1, hr.2.2.2.1⟩ hg
  · simp [INITBL_Constructor, hbb]

/-- C6 amended: construction succeeds exactly when the descriptor build
succeeds, the open/read/validate gates pass, and the number of descriptors
successfully extracted equals the number built. A missing parameter key
therefore always fails construction. (The original claim also demanded
failure for every wrongly-typed parameter; that is refuted by the
counterexample: the engine dispatches on the JSON value type found in the
file, not on the declared descriptor type, so for example a short string
value for an integer parameter still extracts successfully.) -/
theorem c6_construction_requires_full_count (lim : INITBL_Limits)
    (env : FileEnv) (cfgEnum : INILIB_CfgEnum) :
    ((INITBL_Constructor lim env cfgEnum).RetStatus = true ↔
      ((BuildJsonTblObjArray lim (initState cfgEnum)).1 = true
       ∧ 0 ≤ env.openResult ∧ env.readResult ≠ OS_FS_ERROR
       ∧ env.validateStatus = JSONSuccess
       ∧ (CJSON_LoadObjArray
            ((List.range (BuildJsonTblObjArray lim (initState cfgEnum)).2.JsonParamCnt).map
              (BuildJsonTblObjArray lim (initState cfgEnum)).2.JsonParams) env.buf).1
          = (BuildJsonTblObjArray lim (initState cfgEnum)).2.JsonParamCnt))
    ∧ (∀ i, i < (BuildJsonTblObjArray lim (initState cfgEnum)).2.JsonParamCnt →
        searchBuf env.buf
          ((BuildJsonTblObjArray lim (initState cfgEnum)).2.JsonParams i).Query.Key
          = none →
        (INITBL_Constructor lim env cfgEnum).RetStatus = false) := by
  refine ⟨constructor_ret_characterization lim env cfgEnum, ?_⟩
  intro i hi hnone
  by_contra hret
  replace hret : (INITBL_Constructor lim env cfgEnum).RetStatus = true := by
    revert hret
    cases (INITBL_Constructor lim env cfgEnum).RetStatus <;> simp
  obtain ⟨-, -, -, -, hcnt⟩ :=
    (constructor_ret_characterization lim env cfgEnum).mp hret
  rw [loadObjArray_spec] at hcnt
  dsimp only at hcnt
  have hlen :
      ((List.range (BuildJsonTblObjArray lim (initState cfgEnum)).2.JsonParamCnt).map
        (BuildJsonTblObjArray lim (initState cfgEnum)).2.JsonParams).length
      = (BuildJsonTblObjArray lim (initState cfgEnum)).2.JsonParamCnt := by simp
  have hall := List.countP_eq_length.mp (hcnt.trans hlen.symm)
  have hmem :
      (BuildJsonTblObjArray lim (initState cfgEnum)).2.JsonParams i ∈
        (List.range (BuildJsonTblObjArray lim (initState cfgEnum)).2.JsonParamCnt).map
          (BuildJsonTblObjArray lim (initState cfgEnum)).2.JsonParams :=
    List.mem_map_of_mem _ (List.mem_range.mpr hi)
  have hsucc := hall _ hmem
  have hfail := loadObj_search_none
    ((BuildJsonTblObjArray lim (initState cfgEnum)).2.JsonParams i)
    env.buf .OBJ_REQUIRED hnone
  rw [CJSON_LoadObj] at hsucc
  rw [hfail] at hsucc
  exact absurd hsucc (by simp)

/-- C6 witness: a contract of one integer parameter against an empty file
content (the key CFG_P1 missing): construction fails. -/
theorem c6_witness :
    (INITBL_Constructor { maxCfgItems := 4, maxCfgStrLen := 16, keyBase := "CFG_" }
        { openResult := 0, readResult := 2, validateStatus := JSONSuccess, buf := [] }
        { Start := 0, EndId := 2, GetStr := fun _ => "P1",
          GetType := fun _ => INILIB_TYPE_INT }).RetStatus = false := by
  have h := (c6_construction_requires_full_count
    { maxCfgItems := 4, maxCfgStrLen := 16, keyBase := "CFG_" }
    { openResult := 0, readResult := 2, validateStatus := JSONSuccess, buf := [] }
    { Start := 0, EndId := 2, GetStr := fun _ => "P1",
      GetType := fun _ => INILIB_TYPE_INT }).2 0 (by decide) rfl
  exact h

/-- C8: the accessor contract. ValidJsonObjCfg holds exactly when the
uint16 index Param - 1 is in the configured range, the descriptor slot was
updated, and its declared kind matches the requested one; under that guard
INITBL_GetIntConfig returns the integer stored in CfgData[Param] and
INITBL_GetStrConfig the stored string; whenever the guard fails (id out of
range - including Param = 0, whose index wraps to 65535 - slot not updated,
or kind mismatch) the accessors return 0 and NULL respectively, and neither
signals any further error through its return value. -/
theorem c8_accessor_contract (itbl : INITBL_Class) (param n : Nat)
    (s : String) (t : JSONTypes) :
    (ValidJsonObjCfg itbl (jsonObjIndexOf param) t = true ↔
      (itbl.CfgEnum.Start ≤ jsonObjIndexOf param
       ∧ jsonObjIndexOf param < itbl.CfgEnum.EndId
       ∧ (itbl.JsonParams (jsonObjIndexOf param)).Updated = true
       ∧ (itbl.JsonParams (jsonObjIndexOf param)).JType = t))
    ∧ (ValidJsonObjCfg itbl (jsonObjIndexOf param) JSONNumber = true →
        itbl.CfgData param = .intv n →
        INITBL_GetIntConfig itbl param = n)
    ∧ (ValidJsonObjCfg itbl (jsonObjIndexOf param) JSONNumber = false →
        INITBL_GetIntConfig itbl param = 0)
    ∧ (ValidJsonObjCfg itbl (jsonObjIndexOf param) JSONString = true →
        itbl.CfgData param = .strv s →
        INITBL_GetStrConfig itbl param = some s)
    ∧ (ValidJsonObjCfg itbl (jsonObjIndexOf param) JSONString = false →
        INITBL_GetStrConfig itbl param = none) := by
  refine ⟨?_, ?_, ?_, ?_, ?_⟩
  · unfold ValidJsonObjCfg
    split_ifs with h1 h2 <;> simp_all [h1]
  · intro hv hc
    unfold INITBL_GetIntConfig
    dsimp only
    rw [if_pos hv, hc]
    rfl
  · intro hv
    unfold INITBL_GetIntConfig
    dsimp only
    rw [if_neg (by simp [hv])]
  · intro hv hc
    unfold INITBL_GetStrConfig
    dsimp only
    rw [if_pos hv, hc]
    rfl
  · intro hv
    unfold INITBL_GetStrConfig
    dsimp only
    rw [if_neg (by simp [hv])]

/-- C8 witness: a state with one updated number descriptor at id 1 storing
42: the integer accessor returns 42 at id 1; at id 0 the wrapped index
65535 is out of range so both accessors return their zero results; the
string accessor at id 1 sees a kind mismatch and returns NULL. -/
theorem c8_witness :
    INITBL_GetIntConfig
        { CfgEnum := { Start := 0, EndId := 2, GetStr := fun _ => "P",
                       GetType := fun _ => INILIB_TYPE_INT }
          JsonParams := fun i =>
            if i = 0 then
              { Query := { Key := "k", KeyLen := 1 }, TblData := .intv 42,
                TblDataLen := 4, Updated := true, JType := .JSONNumber }
            else zeroObj
          CfgData := fun p => if p = 1 then .intv 42 else .intv 0
          JsonParamCnt := 1, JsonFileLen := 0, JsonBuf := [] } 1 = 42
    ∧ INITBL_GetIntConfig
        { CfgEnum := { Start := 0, EndId := 2, GetStr := fun _ => "P",
                       GetType := fun _ => INILIB_TYPE_INT }
          JsonParams := fun i =>
            if i = 0 then
              { Query := { Key := "k", KeyLen := 1 }, TblData := .intv 42,
                TblDataLen := 4, Updated := true, JType := .JSONNumber }
            else zeroObj
          CfgData := fun p => if p = 1 then .intv 42 else .intv 0
          JsonParamCnt := 1, JsonFileLen := 0, JsonBuf := [] } 0 = 0
    ∧ INITBL_GetStrConfig
        { CfgEnum := { Start := 0, EndId := 2, GetStr := fun _ => "P",
                       GetType := fun _ => INILIB_TYPE_INT }
          JsonParams := fun i =>
            if i = 0 then
              { Query := { Key := "k", KeyLen := 1 }, TblData := .intv 42,
                TblDataLen := 4, Updated := true, JType := .JSONNumber }
            else zeroObj
          CfgData := fun p => if p = 1 then .intv 42 else .intv 0
          JsonParamCnt := 1, JsonFileLen := 0, JsonBuf := [] } 1 = none := by
  refine ⟨?_, ?_, ?_⟩
  · exact (c8_accessor_contract _ 1 42 "" .JSONNumber).2.1 (by decide) rfl
  · exact (c8_accessor_contract _ 0 0 "" .JSONNumber).2.2.1 (by decide)
  · exact (c8_accessor_contract _ 1 0 "" .JSONString).2.2.2.2 (by decide)

/-- Registration from a state whose next id is k hands out k, k+1, ... in
order while the capacity is not exhausted. -/
lemma registerCalls_from {α : Type} (hs : Nat → α) (cap : Nat) :
    ∀ (n k : Nat) (m : TBLMGR_Class α), m.NextAvailableId = k →
      k + n ≤ cap + 1 →
      (registerCalls cap hs n m).1 = List.range' k n
      ∧ (registerCalls cap hs n m).2.NextAvailableId = k + n := by
  intro n
  induction n with
  | zero =>
    intro k m hm _
    exact ⟨rfl, by simpa [registerCalls] using hm⟩
  | succ n ih =>
    intro k m hm hle
    have hk : k ≤ cap := by omega
    unfold registerCalls TBLMGR_RegisterTbl
    rw [hm, if_pos hk]
    dsimp only
    obtain ⟨h1, h2⟩ := ih (k + 1)
      { NextAvailableId := k + 1
        Handlers := fun i => if i = k then some (hs k) else m.Handlers i }
      rfl (by omega)
    refine ⟨?_, by rw [h2]; omega⟩
    rw [h1, List.range'_succ]

/-- C9: on a freshly constructed registry of any capacity cap, a sequence
of N ≤ cap registration calls succeeds with the strictly increasing ids
1, 2, ..., N (and leaves NextAvailableId = N + 1); when the registry is
full (N = cap) the next registration returns the capacity value (the
TBLMGR_MAX_TBL_PER_APP sentinel of tblmgr.h) and leaves the registry
unchanged. -/
theorem c9_registration_ids (α : Type) (hs : Nat → α) (cap N : Nat)
    (h : N ≤ cap) :
    (registerCalls cap hs N (TBLMGR_Constructor α)).1 = List.range' 1 N
    ∧ (registerCalls cap hs N (TBLMGR_Constructor α)).2.NextAvailableId = N + 1
    ∧ (N = cap →
        (TBLMGR_RegisterTbl cap (registerCalls cap hs N (TBLMGR_Constructor α)).2
            (hs N)).1 = cap
        ∧ (TBLMGR_RegisterTbl cap (registerCalls cap hs N (TBLMGR_Constructor α)).2
            (hs N)).2 = (registerCalls cap hs N (TBLMGR_Constructor α)).2) := by
  obtain ⟨h1, h2⟩ := registerCalls_from hs cap N 1 (TBLMGR_Constructor α) rfl
    (by omega)
  refine ⟨h1, by rw [h2]; omega, ?_⟩
  intro hfull
  have hno : ¬ ((registerCalls cap hs N (TBLMGR_Constructor α)).2.NextAvailableId ≤ cap) := by
    rw [h2]; omega
  unfold TBLMGR_RegisterTbl
  rw [if_neg hno]
  exact ⟨rfl, rfl⟩

/-- C9 witness: capacity 3, three registrations hand out ids 1, 2, 3; the
fourth registration returns the capacity value 3. -/
theorem c9_witness :
    (registerCalls 3 (fun _ => ()) 3 (TBLMGR_Constructor Unit)).1 = [1, 2, 3]
    ∧ (TBLMGR_RegisterTbl 3
        (registerCalls 3 (fun _ => ()) 3 (TBLMGR_Constructor Unit)).2 ()).1 = 3 := by
  obtain ⟨h1, -, h3⟩ := c9_registration_ids Unit (fun _ => ()) 3 3 (by decide)
  exact ⟨by rw [h1]; rfl, (h3 rfl).1⟩

end OskCFw
